import Mathlib

/-!
Shallow embedding of `src/server.py` (robust DuckDB + UI startup + prewarm +
aiohttp proxy).

Modelling conventions:
* Byte strings (request/response bodies) are modelled as Lean `String`s,
  treated as opaque byte sequences.
* HTTP header collections are association lists `List (String × String)` in
  wire order; aiohttp's `CIMultiDict.items()` yields every header pair,
  duplicates included, which the list preserves.
* The time-bounded retry loops (`wait_for_tcp`, `prewarm_local_ui`) are
  modelled by the finite list of per-attempt outcomes whose start precedes
  the deadline; an exhausted list means the overall time budget elapsed.
* Python floating-point duration constants are modelled as rationals.
-/

/-- Timing constants from `server.py` lines 32-36 (seconds). -/
def BACKEND_TCP_WAIT : ℚ := 45

/-- `PREWARM_TOTAL = 30.0` -/
def PREWARM_TOTAL : ℚ := 30

/-- `PREWARM_TRY_TIMEOUT = 3.0` -/
def PREWARM_TRY_TIMEOUT : ℚ := 3

/-- `UPSTREAM_CONNECT_TIMEOUT = 3.0` (aiohttp `sock_connect`) -/
def UPSTREAM_CONNECT_TIMEOUT : ℚ := 3

/-- `UPSTREAM_READ_TIMEOUT = 30.0` (aiohttp `sock_read`) -/
def UPSTREAM_READ_TIMEOUT : ℚ := 30

/-- Per-attempt connect timeout inside `wait_for_tcp`:
`socket.create_connection((host, port), timeout=1.0)` (line 133). -/
def WAIT_TCP_ATTEMPT_TIMEOUT : ℚ := 1

/-- Inter-attempt delay inside `wait_for_tcp`: `time.sleep(0.5)` (line 137). -/
def WAIT_TCP_RETRY_DELAY : ℚ := 1/2

/-- Probe timeout used by the monitor loop: `wait_for_tcp("127.0.0.1", UI_PORT, 1.0)`
(line 298). -/
def MONITOR_PROBE_TIMEOUT : ℚ := 1

/-- Sleep between monitor iterations: `await asyncio.sleep(1.0)` (line 301). -/
def MONITOR_SLEEP : ℚ := 1

/-- An incoming HTTP request as the aiohttp handlers see it.
`path` and `query` together form `request.rel_url`; `headers` is the full
header sequence of the request (duplicates preserved, original casing);
`body` is the result of `await request.read()`. -/
structure Request where
  method : String
  path : String
  query : String
  headers : List (String × String)
  body : String
deriving DecidableEq

/-- The response a handler produces.  For `web.Response(text=..., status=...)`
aiohttp's default content type for `text=` is `text/plain`, recorded in
`contentType`; for the relayed `web.StreamResponse` the content type comes
from the relayed headers themselves (`contentType = none`). -/
structure ProxyResponse where
  status : Nat
  reason : String
  headers : List (String × String)
  contentType : Option String
  body : String
deriving DecidableEq

/-- The upstream HTTP request the proxy issues via
`session.request(method, target_url, headers=..., data=..., allow_redirects=False)`
(lines 203-208). -/
structure UpstreamRequest where
  method : String
  url : String
  headers : List (String × String)
  data : String
  allowRedirects : Bool
deriving DecidableEq

/-- Outcome of the `session.request(...)` interaction with the backend, as the
`try`/`except` in `proxy_handler` observes it:
* `response st rsn hs chunks` — backend answered; `chunks` is the sequence of
  non-empty chunks `resp.content.iter_chunked(64*1024)` yields.
* `connectRefused msg` — connect phase failed with a non-timeout error
  (e.g. `ClientConnectorError` wrapping `ConnectionRefusedError`); this is
  **not** an `asyncio.TimeoutError`.
* `connectTimeout` — the `sock_connect` deadline elapsed; aiohttp raises
  `ServerTimeoutError`, which subclasses `asyncio.TimeoutError`.
* `readTimeout` — the `sock_read` deadline elapsed after a successful
  connect; also an `asyncio.TimeoutError`.
* `otherError msg` — any other exception. -/
inductive UpstreamOutcome where
  | response (status : Nat) (reason : String)
      (headers : List (String × String)) (chunks : List String)
  | connectRefused (msg : String)
  | connectTimeout
  | readTimeout
  | otherError (msg : String)
deriving DecidableEq

/-- Whether the raised exception is an instance of `asyncio.TimeoutError`
(the first `except` clause, line 233).  Both timeout variants are: aiohttp's
`ServerTimeoutError(ServerConnectionError, asyncio.TimeoutError)` is raised
for `sock_connect` timeouts as well as for `sock_read` timeouts. -/
def UpstreamOutcome.isAsyncioTimeout : UpstreamOutcome → Bool
  | connectTimeout => true
  | readTimeout => true
  | _ => false

/-- The `str(e)` text interpolated into the `502` body. -/
def UpstreamOutcome.errMsg : UpstreamOutcome → String
  | connectRefused msg => msg
  | otherError msg => msg
  | _ => ""

/-- The relayed body: `async for chunk in resp.content.iter_chunked(64*1024):
if not chunk: break; await response.write(chunk)` — concatenate chunks up to
the first empty one. -/
def relayBody : List String → String
  | [] => ""
  | c :: rest => if c = "" then "" else c ++ relayBody rest

/-- Python's `str.lower()` as the handlers apply it to HTTP header names
(ASCII): lower-case each character. -/
def lowerAscii (s : String) : String :=
  String.mk (s.data.map Char.toLower)

/-- The `excluded` set of hop-by-hop header names (lines 210-219). -/
def excludedResponseHeaders : List String :=
  ["transfer-encoding", "connection", "keep-alive", "proxy-authenticate",
   "proxy-authorization", "te", "trailers", "upgrade"]

/-- `headers_out = [(k, v) for k, v in resp.headers.items() if k.lower() not in excluded]`
— a *list* comprehension, so order and duplicates are preserved. -/
def filterResponseHeaders (hs : List (String × String)) : List (String × String) :=
  hs.filter (fun kv => !(excludedResponseHeaders.contains (lowerAscii kv.1)))

/-- One step of building a Python `dict` from a key/value stream: a repeated
key keeps its first position but its value is overwritten by the later
occurrence; a fresh key is appended. -/
def dictInsert (m : List (String × String)) (kv : String × String) :
    List (String × String) :=
  if m.any (fun e => e.1 = kv.1) then
    m.map (fun e => if e.1 = kv.1 then (e.1, kv.2) else e)
  else m ++ [kv]

/-- Python dict-comprehension semantics over an item stream
(`{k: v for k, v in items}`): later duplicates overwrite earlier values. -/
def dictOfItems (items : List (String × String)) : List (String × String) :=
  items.foldl dictInsert []

/-- `headers = {k: v for k, v in request.headers.items() if k.lower() != "host"}`
(line 198): a *dict* comprehension, so duplicate header names collapse. -/
def upstreamRequestHeaders (reqHeaders : List (String × String)) :
    List (String × String) :=
  dictOfItems (reqHeaders.filter (fun kv => (lowerAscii kv.1) != "host"))

/-- What one invocation of a request handler produces: the response sent to
the client, the value of `_backend_ready` afterwards, and the upstream
request issued to the backend, if any. -/
structure HandlerResult where
  response : ProxyResponse
  readyAfter : Bool
  upstreamRequest : Option UpstreamRequest
deriving DecidableEq

/-- `proxy_handler` (lines 180-241).  `ready` is the value of the shared
`_backend_ready` flag when the handler reads it; `upstream` is the outcome of
the backend interaction (unused when the not-ready fast path triggers). -/
def proxy_handler (ready : Bool) (uiPort : Nat) (req : Request)
    (upstream : UpstreamOutcome) : HandlerResult :=
  if ready = false then
    { response :=
        { status := 503
          reason := "Service Unavailable"
          headers := [("Retry-After", toString 5)]
          contentType := some "text/plain"
          body := "Service unavailable: DuckDB UI not ready yet. Retry later." }
      readyAfter := ready
      upstreamRequest := none }
  else
    let targetUrl := "http://127.0.0.1:" ++ toString uiPort ++ req.path ++ req.query
    let ureq : UpstreamRequest :=
      { method := req.method
        url := targetUrl
        headers := upstreamRequestHeaders req.headers
        data := req.body
        allowRedirects := false }
    match upstream with
    | .response status reason hs chunks =>
        { response :=
            { status := status
              reason := reason
              headers := filterResponseHeaders hs
              contentType := none
              body := relayBody chunks }
          readyAfter := ready
          upstreamRequest := some ureq }
    | o =>
        if o.isAsyncioTimeout then
          { response :=
              { status := 504
                reason := "Gateway Timeout"
                headers := []
                contentType := some "text/plain"
                body := "Gateway timeout while contacting local DuckDB UI." }
            readyAfter := ready
            upstreamRequest := some ureq }
        else
          { response :=
              { status := 502
                reason := "Bad Gateway"
                headers := []
                contentType := some "text/plain"
                body := "Bad gateway: " ++ o.errMsg }
            readyAfter := false
            upstreamRequest := some ureq }

/-- `health_handler` (lines 244-245): `web.Response(text="ok", status=200)`. -/
def health_handler (_req : Request) : ProxyResponse :=
  { status := 200
    reason := "OK"
    headers := []
    contentType := some "text/plain"
    body := "ok" }

/-- Route selection of the aiohttp application (lines 281-283):
`web.get("/health", health_handler)` registers GET — and, with aiohttp's
default `allow_head=True`, HEAD — on the exact path `/health`; the catch-all
`add_route("*", "/\x7btail:.*\x7d", proxy_handler)` matches every other
method/path combination. -/
def routesToHealth (req : Request) : Bool :=
  (req.method == "GET" || req.method == "HEAD") && req.path == "/health"

/-- Dispatch of one incoming request through the router to its handler.
`health_handler` never touches `_backend_ready`. -/
def dispatch (ready : Bool) (uiPort : Nat) (req : Request)
    (upstream : UpstreamOutcome) : HandlerResult :=
  if routesToHealth req then
    { response := health_handler req
      readyAfter := ready
      upstreamRequest := none }
  else
    proxy_handler ready uiPort req upstream

/-- `wait_for_tcp` (lines 127-141), abstracted over time: `attempts` lists the
outcome (`true` = connect succeeded, `false` = the attempt raised and was
swallowed by `except Exception`) of each `socket.create_connection` attempt
started before the deadline.  Returns `true` on the first success, `false`
when the deadline passes with no success.  Every exception is caught inside
the loop, so the function only ever returns a boolean. -/
def wait_for_tcp (attempts : List Bool) : Bool :=
  match attempts with
  | [] => false
  | true :: _ => true
  | false :: rest => wait_for_tcp rest

/-- Outcome of one `urllib.request.urlopen` attempt inside `prewarm_local_ui`:
`success firstByte` means `urlopen` returned a response object and
`resp.read(1)` yielded `firstByte` (`none` when the body was empty);
`failure` means the attempt raised and was swallowed. -/
inductive PrewarmAttempt where
  | success (firstByte : Option Nat)
  | failure
deriving DecidableEq

/-- `prewarm_local_ui` (lines 144-173), abstracted over time like
`wait_for_tcp`: on the first attempt whose `urlopen` succeeds the function
prints `first-byte-exists=...` and returns `True` — *regardless of whether
`resp.read(1)` produced a byte*; if every attempt before the deadline fails,
it returns `False`. -/
def prewarm_local_ui (attempts : List PrewarmAttempt) : Bool :=
  match attempts with
  | [] => false
  | .success _ :: _ => true
  | .failure :: rest => prewarm_local_ui rest

/-- Whether any attempt in the trace actually read a body byte. -/
def anyByteRead (attempts : List PrewarmAttempt) : Bool :=
  attempts.any (fun a =>
    match a with
    | .success (some _) => true
    | _ => false)

/-- Result of the startup sequence in `main` (lines 248-278), up to the point
where the aiohttp site is started.  `aborted` records whether this part of
`main` exits the process (it never does — `sys.exit` only occurs inside
`duckdb_start_and_setup`, before this sequence). -/
structure StartupResult where
  ready : Bool
  aborted : Bool
  prewarmAttempted : Bool
  prewarmWarningLogged : Bool
deriving DecidableEq

/-- Lines 259-278 of `main`: wait for TCP; on failure mark not-ready and
continue; on success run the prewarm and mark ready *regardless* of the
prewarm outcome (`_backend_ready = True  # mark ready regardless`), logging
only a warning when the prewarm failed. -/
def startupReadiness (tcpAttempts : List Bool)
    (prewarmAttempts : List PrewarmAttempt) : StartupResult :=
  if wait_for_tcp tcpAttempts then
    { ready := true
      aborted := false
      prewarmAttempted := true
      prewarmWarningLogged := !(prewarm_local_ui prewarmAttempts) }
  else
    { ready := false
      aborted := false
      prewarmAttempted := false
      prewarmWarningLogged := false }

/-- One iteration of `monitor_backend` (lines 294-301): if `_backend_ready`
is false, probe with `wait_for_tcp("127.0.0.1", UI_PORT, 1.0)` and set it to
true on success; an already-ready flag is left untouched. -/
def monitor_backend_step (ready : Bool) (probe : List Bool) : Bool :=
  if !ready then
    if wait_for_tcp probe then true else ready
  else ready

/-- The events that can touch `_backend_ready` once the proxy is serving:
a monitor-loop iteration, or one dispatched client request.  No other code
in `server.py` writes the flag after `site.start()`. -/
inductive ServeEvent where
  | monitorTick (probe : List Bool)
  | clientRequest (req : Request) (upstream : UpstreamOutcome)

/-- How `_backend_ready` evolves under one serve-time event. -/
def stepReady (ready : Bool) (uiPort : Nat) : ServeEvent → Bool
  | .monitorTick probe => monitor_backend_step ready probe
  | .clientRequest req upstream => (dispatch ready uiPort req upstream).readyAfter

/-- Whether the upstream outcome takes the generic-exception branch that
flips `_backend_ready` to false (line 237-241). -/
def upstreamHardError : UpstreamOutcome → Bool
  | .response _ _ _ _ => false
  | o => !o.isAsyncioTimeout

/-! ### Helper lemmas about Python dict-comprehension semantics -/

theorem dictInsert_keyProp (P : String → Prop) (m : List (String × String))
    (kv : String × String) (hm : ∀ e ∈ m, P e.1) (hk : P kv.1) :
    ∀ e ∈ dictInsert m kv, P e.1 := by
  intro e he
  unfold dictInsert at he
  split at he
  · rcases List.mem_map.mp he with ⟨a, ha, rfl⟩
    by_cases hcase : a.1 = kv.1 <;> simp only [hcase, if_true, if_false, ite_true, ite_false]
    · exact hcase ▸ hm a ha
    · exact hm a ha
  · rcases List.mem_append.mp he with h | h
    · exact hm e h
    · rw [List.mem_singleton] at h
      subst h
      exact hk

theorem foldl_dictInsert_keyProp (P : String → Prop) :
    ∀ (items m : List (String × String)), (∀ e ∈ m, P e.1) → (∀ e ∈ items, P e.1) →
      ∀ e ∈ items.foldl dictInsert m, P e.1 := by
  intro items
  induction items with
  | nil =>
      intro m hm _
      simpa using hm
  | cons kv rest ih =>
      intro m hm hitems
      simp only [List.foldl_cons]
      exact ih (dictInsert m kv)
        (dictInsert_keyProp P m kv hm (hitems kv (List.mem_cons_self kv rest)))
        (fun e he => hitems e (List.mem_cons_of_mem kv he))

theorem dictOfItems_keyProp (P : String → Prop) (items : List (String × String))
    (h : ∀ e ∈ items, P e.1) : ∀ e ∈ dictOfItems items, P e.1 :=
  foldl_dictInsert_keyProp P items [] (by simp) h

theorem dictOfItems_nodup : ∀ (items : List (String × String)),
    (items.map Prod.fst).Nodup → dictOfItems items = items := by
  intro items
  induction items using List.reverseRecOn with
  | nil => intro _; rfl
  | append_singleton l kv ih =>
      intro h
      rw [List.map_append] at h
      have hl : (l.map Prod.fst).Nodup := h.of_append_left
      have hdisj := List.disjoint_of_nodup_append h
      have hkv : kv.1 ∉ l.map Prod.fst := fun hmem => hdisj hmem (by simp)
      have hany : (l.any (fun e => e.1 = kv.1)) = false := by
        rw [List.any_eq_false]
        intro e he
        simp only [decide_eq_true_eq]
        intro hcontr
        exact hkv (hcontr ▸ List.mem_map_of_mem Prod.fst he)
      unfold dictOfItems at ih ⊢
      rw [List.foldl_append, ih hl]
      show dictInsert l kv = l ++ [kv]
      unfold dictInsert
      rw [hany]
      simp

/-! ### Concrete fixtures used by witnesses and counterexamples -/

/-- A plain `GET /` request with no headers and no body. -/
def reqRoot : Request :=
  { method := "GET", path := "/", query := "", headers := [], body := "" }

/-- A `GET /health` request. -/
def healthReq : Request :=
  { method := "GET", path := "/health", query := "", headers := [], body := "" }

/-- A `POST /health` request. -/
def reqPostHealth : Request :=
  { method := "POST", path := "/health", query := "", headers := [], body := "" }

/-- A request carrying the same header name twice with different values. -/
def reqDupHeaders : Request :=
  { method := "GET", path := "/", query := "",
    headers := [("X-Dup", "1"), ("X-Dup", "2")], body := "" }

/-- A request with a `Host` header and one ordinary header. -/
def reqTwoHeaders : Request :=
  { method := "GET", path := "/", query := "",
    headers := [("Host", "example.com"), ("Accept", "text/html")], body := "" }

/-- The headers the proxy handed to `session.request`, when it issued one. -/
def sentUpstreamHeaders (r : HandlerResult) : List (String × String) :=
  match r.upstreamRequest with
  | some u => u.headers
  | none => []

/-! ### Claim theorems -/

/-- Claim C1: whenever the readiness flag is false, `proxy_handler` answers
status 503 with header `Retry-After: 5` and the short explanatory body, and
no upstream request is issued to the backend endpoint. -/
theorem C1_not_ready_503 (uiPort : Nat) (req : Request)
    (upstream : UpstreamOutcome) :
    (proxy_handler false uiPort req upstream).response.status = 503 ∧
    (proxy_handler false uiPort req upstream).response.headers =
      [("Retry-After", "5")] ∧
    (proxy_handler false uiPort req upstream).response.body =
      "Service unavailable: DuckDB UI not ready yet. Retry later." ∧
    (proxy_handler false uiPort req upstream).upstreamRequest = none :=
  ⟨rfl, rfl, rfl, rfl⟩

/-- Closed instance of `C1_not_ready_503` at a concrete request. -/
theorem C1_not_ready_503_witness :
    (proxy_handler false 8080 reqRoot (.otherError "boom")).response.status = 503 ∧
    (proxy_handler false 8080 reqRoot (.otherError "boom")).response.headers =
      [("Retry-After", "5")] ∧
    (proxy_handler false 8080 reqRoot (.otherError "boom")).response.body =
      "Service unavailable: DuckDB UI not ready yet. Retry later." ∧
    (proxy_handler false 8080 reqRoot (.otherError "boom")).upstreamRequest = none :=
  C1_not_ready_503 8080 reqRoot (.otherError "boom")

/-- Claim C2 counterexample: a connect-phase *timeout* (aiohttp raises
`ServerTimeoutError`, a subclass of `asyncio.TimeoutError`, when the
`sock_connect` budget elapses) is answered 504, not 502, and the readiness
flag is left untouched — contradicting the claim that every connect-phase
failure **or timeout** yields 502 and flips readiness. -/
theorem C2_counterexample_connect_timeout :
    (proxy_handler true 8080 reqRoot UpstreamOutcome.connectTimeout).response.status = 504 ∧
    (proxy_handler true 8080 reqRoot UpstreamOutcome.connectTimeout).readyAfter = true ∧
    ¬ ((proxy_handler true 8080 reqRoot UpstreamOutcome.connectTimeout).response.status = 502 ∧
       (proxy_handler true 8080 reqRoot UpstreamOutcome.connectTimeout).readyAfter = false) :=
  ⟨rfl, rfl, fun h => by cases h.1⟩

/-- Claim C2 (amended): while ready, a non-timeout upstream error (connect
refused, or any other non-timeout exception) is answered 502 Bad Gateway and
flips the readiness flag to false; any `asyncio.TimeoutError` — whether the
connect-phase or the read-phase deadline elapsed — is answered 504 Gateway
Timeout and leaves the readiness flag unchanged. -/
theorem C2_error_mapping_amended (uiPort : Nat) (req : Request) (msg : String) :
    ((proxy_handler true uiPort req (.connectRefused msg)).response.status = 502 ∧
     (proxy_handler true uiPort req (.connectRefused msg)).response.body =
       "Bad gateway: " ++ msg ∧
     (proxy_handler true uiPort req (.connectRefused msg)).readyAfter = false) ∧
    ((proxy_handler true uiPort req (.otherError msg)).response.status = 502 ∧
     (proxy_handler true uiPort req (.otherError msg)).readyAfter = false) ∧
    ((proxy_handler true uiPort req .connectTimeout).response.status = 504 ∧
     (proxy_handler true uiPort req .connectTimeout).readyAfter = true) ∧
    ((proxy_handler true uiPort req .readTimeout).response.status = 504 ∧
     (proxy_handler true uiPort req .readTimeout).readyAfter = true) :=
  ⟨⟨rfl, rfl, rfl⟩, ⟨rfl, rfl⟩, ⟨rfl, rfl⟩, ⟨rfl, rfl⟩⟩

/-- Closed instance of `C2_error_mapping_amended` at a concrete request. -/
theorem C2_error_mapping_amended_witness :
    ((proxy_handler true 8080 reqRoot (.connectRefused "refused")).response.status = 502 ∧
     (proxy_handler true 8080 reqRoot (.connectRefused "refused")).response.body =
       "Bad gateway: " ++ "refused" ∧
     (proxy_handler true 8080 reqRoot (.connectRefused "refused")).readyAfter = false) ∧
    ((proxy_handler true 8080 reqRoot (.otherError "refused")).response.status = 502 ∧
     (proxy_handler true 8080 reqRoot (.otherError "refused")).readyAfter = false) ∧
    ((proxy_handler true 8080 reqRoot .connectTimeout).response.status = 504 ∧
     (proxy_handler true 8080 reqRoot .connectTimeout).readyAfter = true) ∧
    ((proxy_handler true 8080 reqRoot .readTimeout).response.status = 504 ∧
     (proxy_handler true 8080 reqRoot .readTimeout).readyAfter = true) :=
  C2_error_mapping_amended 8080 reqRoot "refused"

/-- Claim C3: a relayed backend response never contains a hop-by-hop header
(case-insensitively); a header pair is relayed iff the backend sent it and it
is not hop-by-hop, and status and reason are relayed unchanged. -/
theorem C3_hop_by_hop_stripping (uiPort st : Nat) (req : Request) (rsn : String)
    (hs : List (String × String)) (chunks : List String) :
    (∀ kv ∈ (proxy_handler true uiPort req (.response st rsn hs chunks)).response.headers,
        excludedResponseHeaders.contains (lowerAscii kv.1) = false) ∧
    (∀ kv, kv ∈ (proxy_handler true uiPort req (.response st rsn hs chunks)).response.headers ↔
        kv ∈ hs ∧ excludedResponseHeaders.contains (lowerAscii kv.1) = false) ∧
    (proxy_handler true uiPort req (.response st rsn hs chunks)).response.status = st ∧
    (proxy_handler true uiPort req (.response st rsn hs chunks)).response.reason = rsn := by
  have hmem : ∀ kv, kv ∈ (proxy_handler true uiPort req
      (.response st rsn hs chunks)).response.headers ↔
      kv ∈ hs ∧ excludedResponseHeaders.contains (lowerAscii kv.1) = false := by
    intro kv
    show kv ∈ filterResponseHeaders hs ↔ _
    simp [filterResponseHeaders, List.mem_filter, Bool.not_eq_true']
  exact ⟨fun kv hkv => ((hmem kv).mp hkv).2, hmem, rfl, rfl⟩

/-- Closed instance of `C3_hop_by_hop_stripping`: the backend sends
`Transfer-Encoding` and `Connection` alongside `Content-Type`; only
`Content-Type` is relayed, with status and reason intact. -/
theorem C3_hop_by_hop_stripping_witness :
    (proxy_handler true 8080 reqRoot (.response 200 "OK"
        [("Content-Type", "text/html"), ("Transfer-Encoding", "chunked"),
         ("Connection", "keep-alive")] ["hi"])).response.headers =
      [("Content-Type", "text/html")] ∧
    (proxy_handler true 8080 reqRoot (.response 200 "OK"
        [("Content-Type", "text/html"), ("Transfer-Encoding", "chunked"),
         ("Connection", "keep-alive")] ["hi"])).response.status = 200 := by
  have h := C3_hop_by_hop_stripping 8080 200 reqRoot "OK"
    [("Content-Type", "text/html"), ("Transfer-Encoding", "chunked"),
     ("Connection", "keep-alive")] ["hi"]
  exact ⟨by decide, h.2.2.1⟩

/-- Claim C4: a `GET /health` request is routed to `health_handler` and gets
the fixed 200 `text/plain` response with body `"ok"`, for every readiness
state and every backend outcome, with no upstream request issued. -/
theorem C4_health_fixed_response (ready : Bool) (uiPort : Nat) (req : Request)
    (upstream : UpstreamOutcome) (hm : req.method = "GET")
    (hp : req.path = "/health") :
    (dispatch ready uiPort req upstream).response.status = 200 ∧
    (dispatch ready uiPort req upstream).response.body = "ok" ∧
    (dispatch ready uiPort req upstream).response.contentType = some "text/plain" ∧
    (dispatch ready uiPort req upstream).upstreamRequest = none := by
  have hroute : routesToHealth req = true := by
    simp [routesToHealth, hm, hp]
  simp [dispatch, hroute, health_handler]

/-- Closed instance of `C4_health_fixed_response`: readiness false and an
unreachable backend still yield `200 "ok"`. -/
theorem C4_health_fixed_response_witness :
    (dispatch false 8080 healthReq (.connectRefused "refused")).response.status = 200 ∧
    (dispatch false 8080 healthReq (.connectRefused "refused")).response.body = "ok" ∧
    (dispatch false 8080 healthReq (.connectRefused "refused")).response.contentType =
      some "text/plain" ∧
    (dispatch false 8080 healthReq (.connectRefused "refused")).upstreamRequest = none :=
  C4_health_fixed_response false 8080 healthReq (.connectRefused "refused") rfl rfl

/-- Claim C5: when the TCP-reachability wait succeeds, startup marks the
proxy ready whatever the prewarm outcome, and never aborts. -/
theorem C5_prewarm_failure_not_fatal (tcpAttempts : List Bool)
    (prewarmAttempts : List PrewarmAttempt)
    (h : wait_for_tcp tcpAttempts = true) :
    (startupReadiness tcpAttempts prewarmAttempts).ready = true ∧
    (startupReadiness tcpAttempts prewarmAttempts).aborted = false := by
  simp [startupReadiness, h]

/-- Closed instance of `C5_prewarm_failure_not_fatal`: TCP wait succeeds on
the first attempt, the prewarm budget lapses with no successful attempt
(`prewarm_local_ui [] = false`), yet startup marks ready and does not abort. -/
theorem C5_prewarm_failure_not_fatal_witness :
    wait_for_tcp [true] = true ∧
    prewarm_local_ui [] = false ∧
    (startupReadiness [true] []).ready = true ∧
    (startupReadiness [true] []).aborted = false ∧
    (startupReadiness [true] []).prewarmWarningLogged = true :=
  ⟨rfl, rfl, (C5_prewarm_failure_not_fatal [true] [] rfl).1,
   (C5_prewarm_failure_not_fatal [true] [] rfl).2, rfl⟩

/-- Claim C6 (code bug): `prewarm_local_ui` returns `True` as soon as a GET
attempt succeeds, even when `resp.read(1)` yielded **zero** bytes — its own
docstring says "Return True on some bytes received".  An all-failure trace
up to the deadline does return `False`. -/
theorem C6_prewarm_true_without_body_byte :
    prewarm_local_ui [PrewarmAttempt.success none] = true ∧
    anyByteRead [PrewarmAttempt.success none] = false ∧
    prewarm_local_ui [PrewarmAttempt.failure, PrewarmAttempt.failure] = false :=
  ⟨rfl, rfl, rfl⟩

/-- Claim C7: `wait_for_tcp` always returns a boolean (all exceptions are
swallowed inside the loop): it returns `true` exactly when some connect
attempt started before the deadline succeeds, hence `false` exactly when the
timeout lapses with no success; the per-attempt connect timeout is 1s and
the inter-attempt delay is 0.5s. -/
theorem C7_wait_for_tcp_characterization (attempts : List Bool) :
    (wait_for_tcp attempts = true ↔ true ∈ attempts) ∧
    (wait_for_tcp attempts = false ↔ true ∉ attempts) ∧
    WAIT_TCP_ATTEMPT_TIMEOUT = 1 ∧ WAIT_TCP_RETRY_DELAY = 1/2 := by
  have h1 : wait_for_tcp attempts = true ↔ true ∈ attempts := by
    induction attempts with
    | nil => simp [wait_for_tcp]
    | cons a rest ih =>
        cases a
        · simpa [wait_for_tcp] using ih
        · simp [wait_for_tcp]
  refine ⟨h1, ⟨?_, ?_⟩, rfl, rfl⟩
  · intro hf hm
    rw [h1.mpr hm] at hf
    cases hf
  · intro hm
    cases hfa : wait_for_tcp attempts
    · rfl
    · exact absurd (h1.mp hfa) hm

/-- Closed instance of `C7_wait_for_tcp_characterization`: a failed attempt
followed by a success yields `true`; two failures before the deadline yield
`false`. -/
theorem C7_wait_for_tcp_characterization_witness :
    wait_for_tcp [false, true] = true ∧ wait_for_tcp [false, false] = false :=
  ⟨(C7_wait_for_tcp_characterization [false, true]).1.mpr (by decide),
   (C7_wait_for_tcp_characterization [false, false]).2.1.mpr (by decide)⟩

/-- Claim C8 counterexample: the client sends the header name `X-Dup` twice
(values `1` then `2`); the dict comprehension on line 198 collapses them, so
the upstream request carries only `("X-Dup", "2")` — the client header pair
`("X-Dup", "1")`, which is not a `Host` header, is *not* carried. -/
theorem C8_counterexample_duplicate_header :
    ("X-Dup", "1") ∈ reqDupHeaders.headers ∧
    lowerAscii "X-Dup" ≠ "host" ∧
    sentUpstreamHeaders (proxy_handler true 8080 reqDupHeaders
      (.response 200 "OK" [] [])) = [("X-Dup", "2")] ∧
    ("X-Dup", "1") ∉ sentUpstreamHeaders (proxy_handler true 8080 reqDupHeaders
      (.response 200 "OK" [] [])) := by
  refine ⟨by decide, by decide, ?_, ?_⟩
  · decide
  · decide

/-- Claim C8 (amended): while ready, the upstream request uses the client's
method, path (and query) and full body, never follows redirects (they are
relayed with the backend's exact status and reason), and carries the client's
headers except `Host` (case-insensitively) after Python-dict collapsing: for
a repeated header name only the last occurrence's value is sent; when no
header name repeats, every non-`Host` header pair is carried verbatim. -/
theorem C8_upstream_request_fidelity_amended (uiPort : Nat) (req : Request)
    (st : Nat) (rsn : String) (hs : List (String × String))
    (chunks : List String) :
    (proxy_handler true uiPort req (.response st rsn hs chunks)).upstreamRequest =
      some { method := req.method
             url := "http://127.0.0.1:" ++ toString uiPort ++ req.path ++ req.query
             headers := upstreamRequestHeaders req.headers
             data := req.body
             allowRedirects := false } ∧
    (∀ kv ∈ upstreamRequestHeaders req.headers, lowerAscii kv.1 ≠ "host") ∧
    ((req.headers.map Prod.fst).Nodup →
      upstreamRequestHeaders req.headers =
        req.headers.filter (fun kv => (lowerAscii kv.1) != "host")) ∧
    (proxy_handler true uiPort req (.response st rsn hs chunks)).response.status = st ∧
    (proxy_handler true uiPort req (.response st rsn hs chunks)).response.reason = rsn := by
  refine ⟨rfl, ?_, ?_, rfl, rfl⟩
  · intro kv hkv
    refine dictOfItems_keyProp (fun k => lowerAscii k ≠ "host")
      (req.headers.filter (fun kv => (lowerAscii kv.1) != "host")) ?_ kv hkv
    intro e he
    have := (List.mem_filter.mp he).2
    simpa [bne_iff_ne] using this
  · intro hnodup
    refine dictOfItems_nodup _ ?_
    have hsub : List.Sublist
        ((req.headers.filter (fun kv => (lowerAscii kv.1) != "host")).map Prod.fst)
        (req.headers.map Prod.fst) :=
      List.Sublist.map Prod.fst (List.filter_sublist req.headers)
    exact List.Nodup.sublist hsub hnodup

/-- Closed instance of `C8_upstream_request_fidelity_amended`: a request with
a `Host` header and one ordinary header, answered by a backend redirect; the
`Host` header is dropped, the ordinary header is carried verbatim (its names
are duplicate-free, discharging the hypothesis), the redirect status 302 is
relayed unchanged and redirects are not followed. -/
theorem C8_upstream_request_fidelity_amended_witness :
    (proxy_handler true 8080 reqTwoHeaders
        (.response 302 "Found" [("Location", "/x")] [])).upstreamRequest =
      some { method := "GET"
             url := "http://127.0.0.1:" ++ toString 8080 ++ "/" ++ ""
             headers := upstreamRequestHeaders reqTwoHeaders.headers
             data := ""
             allowRedirects := false } ∧
    upstreamRequestHeaders reqTwoHeaders.headers = [("Accept", "text/html")] ∧
    (proxy_handler true 8080 reqTwoHeaders
        (.response 302 "Found" [("Location", "/x")] [])).response.status = 302 := by
  have h := C8_upstream_request_fidelity_amended 8080 reqTwoHeaders 302 "Found"
    [("Location", "/x")] []
  refine ⟨h.1, ?_, h.2.2.2.1⟩
  have hfiltered := h.2.2.1 (by decide)
  rw [hfiltered]
  decide

/-- Claim C9: once serving, the readiness flag moves only in two directions:
a monitor tick never downgrades an already-ready flag and upgrades a
not-ready flag exactly when its probe succeeds; a dispatched request never
upgrades the flag, and downgrades it exactly when it reaches the proxy
handler (not the health route) and the upstream interaction fails with a
non-timeout error; the monitor probes with a 1s budget and sleeps 1s between
iterations.  These are the only serve-time events that touch the flag. -/
theorem C9_ready_flag_transitions (uiPort : Nat) :
    (∀ probe, stepReady true uiPort (.monitorTick probe) = true) ∧
    (∀ probe, stepReady false uiPort (.monitorTick probe) = wait_for_tcp probe) ∧
    (∀ req upstream, stepReady false uiPort (.clientRequest req upstream) = false) ∧
    (∀ req upstream, stepReady true uiPort (.clientRequest req upstream) = false ↔
        routesToHealth req = false ∧ upstreamHardError upstream = true) ∧
    MONITOR_PROBE_TIMEOUT = 1 ∧ MONITOR_SLEEP = 1 := by
  refine ⟨fun probe => rfl, ?_, ?_, ?_, rfl, rfl⟩
  · intro probe
    cases h : wait_for_tcp probe <;>
      simp [stepReady, monitor_backend_step, h]
  · intro req upstream
    show (dispatch false uiPort req upstream).readyAfter = false
    unfold dispatch
    split
    · rfl
    · rfl
  · intro req upstream
    show (dispatch true uiPort req upstream).readyAfter = false ↔ _
    unfold dispatch
    by_cases hr : routesToHealth req = true
    · simp [hr]
    · have hr' : routesToHealth req = false := by
        simpa using hr
      cases upstream <;>
        simp [hr', proxy_handler, upstreamHardError, UpstreamOutcome.isAsyncioTimeout]

/-- Closed instance of `C9_ready_flag_transitions` at port 8080 with concrete
events, the iff discharged at a connect-refused upstream error. -/
theorem C9_ready_flag_transitions_witness :
    stepReady true 8080 (.monitorTick [false]) = true ∧
    stepReady false 8080 (.monitorTick [true]) = wait_for_tcp [true] ∧
    stepReady false 8080 (.clientRequest reqRoot (.connectRefused "r")) = false ∧
    stepReady true 8080 (.clientRequest reqRoot (.connectRefused "r")) = false :=
  ⟨(C9_ready_flag_transitions 8080).1 [false],
   (C9_ready_flag_transitions 8080).2.1 [true],
   (C9_ready_flag_transitions 8080).2.2.1 reqRoot (.connectRefused "r"),
   ((C9_ready_flag_transitions 8080).2.2.2.1 reqRoot (.connectRefused "r")).mpr
     (by decide)⟩

/-- Claim C10: a `/health` request whose method is neither GET nor HEAD is
dispatched to `proxy_handler`, hence is answered 503 whenever the readiness
flag is false. -/
theorem C10_health_other_methods_proxied (ready : Bool) (uiPort : Nat)
    (req : Request) (upstream : UpstreamOutcome)
    (hm : req.method ≠ "GET") (hm' : req.method ≠ "HEAD") :
    dispatch ready uiPort req upstream = proxy_handler ready uiPort req upstream ∧
    (ready = false → (dispatch ready uiPort req upstream).response.status = 503) := by
  have h1 : (req.method == "GET") = false := beq_eq_false_iff_ne.mpr hm
  have h2 : (req.method == "HEAD") = false := beq_eq_false_iff_ne.mpr hm'
  have hroute : routesToHealth req = false := by
    simp [routesToHealth, h1, h2]
  constructor
  · simp [dispatch, hroute]
  · intro hready
    subst hready
    simp [dispatch, hroute, proxy_handler]

/-- Closed instance of `C10_health_other_methods_proxied`: `POST /health`
while not ready goes to the proxy handler and is answered 503, not 200. -/
theorem C10_health_other_methods_proxied_witness :
    dispatch false 8080 reqPostHealth .connectTimeout =
      proxy_handler false 8080 reqPostHealth .connectTimeout ∧
    (dispatch false 8080 reqPostHealth .connectTimeout).response.status = 503 := by
  have h := C10_health_other_methods_proxied false 8080 reqPostHealth
    .connectTimeout (by decide) (by decide)
  exact ⟨h.1, h.2 rfl⟩
